import Mathlib

/-!
Verification development for the CTI SIEM integration module
(api/integrations/siem_connector.py).

The Python module is shallowly embedded: dictionaries with optional keys
become structures of Option-typed fields, connector objects become values
describing their push behaviour, the network is an explicit outcome
parameter, and Python exceptions become an explicit constructor of the
push-result type.  Machine-level hashing (hashlib.sha256, hmac, base64)
is implemented executably over lists of byte values (Nat below 256).
-/

namespace CTISiem

/-- Embedding of the intelligence_data dictionary handed to the connectors.
Every key may be absent, which dict.get models with Option. -/
structure IntelligenceData where
  id : Option String
  submission_time : Option String
  severity : Option Int
  threat_type : Option String
  confidence_score : Option Int
  ioc_hash : Option String
  stix_pattern : Option String
  mitre_techniques : Option (List String)
  submitter : Option String
  is_verified : Option Bool
  validation_count : Option Int
  transaction_hash : Option String
deriving Repr, DecidableEq

/-- A record with every optional key absent, used for concrete instances. -/
def emptyData : IntelligenceData :=
  ⟨none, none, none, none, none, none, none, none, none, none, none, none⟩

/-- SIEMConnector._map_severity: map Sui severity (1-10) to SIEM levels. -/
def map_severity (sui_severity : Int) : String :=
  if sui_severity ≥ 8 then "critical"
  else if sui_severity ≥ 6 then "high"
  else if sui_severity ≥ 4 then "medium"
  else "low"

/-- SIEMConnector._map_confidence: map confidence score to qualitative levels. -/
def map_confidence (confidence_score : Int) : String :=
  if confidence_score ≥ 80 then "high"
  else if confidence_score ≥ 60 then "medium"
  else "low"

/-- Rank of a qualitative severity band in the order low<medium<high<critical. -/
def severity_rank (s : String) : Nat :=
  if s = "low" then 0
  else if s = "medium" then 1
  else if s = "high" then 2
  else 3

/-- Rank of a qualitative confidence band in the order low<medium<high. -/
def confidence_rank (s : String) : Nat :=
  if s = "low" then 0
  else if s = "medium" then 1
  else 2

/-- Outcome of one call to a connector push_intelligence coroutine: a
normal boolean return, or a raised Python exception carrying its class
name. -/
inductive PushResult where
  | ok : Bool → PushResult
  | raises : String → PushResult
deriving Repr, DecidableEq

/-- A connector held in the orchestrator registry, abstracted to the push
behaviour it exhibits on the record during this broadcast call. -/
abbrev Connector : Type := IntelligenceData → PushResult

/-- CTISIEMIntegration._safe_push_intelligence: the push is awaited inside
try/except Exception, so a raising push becomes a normal False return. -/
def safe_push_intelligence (push : PushResult) : PushResult :=
  match push with
  | .ok b => .ok b
  | .raises _ => .ok false

/-- The result-compilation loop of broadcast_intelligence: asyncio.gather
with return_exceptions=True hands back either the task value or the
exception object, and an exception is recorded as False. -/
def gather_entry (r : PushResult) : Bool :=
  match r with
  | .ok b => b
  | .raises _ => false

/-- Target resolution of broadcast_intelligence: the Python truthiness
test `if target_siems:` treats None and the empty list alike, keeping the
whole registry; otherwise the registry is filtered to the named entries. -/
def resolve_targets (registry : List (String × Connector))
    (target_siems : Option (List String)) : List (String × Connector) :=
  match target_siems with
  | none => registry
  | some ts =>
      if ts.isEmpty then registry
      else registry.filter fun kv => ts.contains kv.1

/-- CTISIEMIntegration.broadcast_intelligence: push the record to every
resolved connector and compile the name-to-bool result map (the Python
dict is modelled as an association list in registry iteration order). -/
def broadcast_intelligence (registry : List (String × Connector))
    (intelligence_data : IntelligenceData)
    (target_siems : Option (List String)) : List (String × Bool) :=
  (resolve_targets registry target_siems).map fun kv =>
    (kv.1, gather_entry (safe_push_intelligence (kv.2 intelligence_data)))

/-- The derived success count of a broadcast result map. -/
def success_count (results : List (String × Bool)) : Nat :=
  results.countP fun kv => kv.2

/-- A connector whose push always returns True, for concrete instances. -/
def always_true_connector : Connector := fun _ => PushResult.ok true

/-- Truncation to a 32-bit word. -/
def w32 (n : Nat) : Nat := n % 4294967296

/-- 32-bit right rotation. -/
def rotr32 (x n : Nat) : Nat := (x >>> n) ||| w32 (x <<< (32 - n))

/-- The SHA-256 round constants. -/
def sha256K : List Nat :=
  [1116352408, 1899447441, 3049323471, 3921009573,
   961987163, 1508970993, 2453635748, 2870763221,
   3624381080, 310598401, 607225278, 1426881987,
   1925078388, 2162078206, 2614888103, 3248222580,
   3835390401, 4022224774, 264347078, 604807628,
   770255983, 1249150122, 1555081692, 1996064986,
   2554220882, 2821834349, 2952996808, 3210313671,
   3336571891, 3584528711, 113926993, 338241895,
   666307205, 773529912, 1294757372, 1396182291,
   1695183700, 1986661051, 2177026350, 2456956037,
   2730485921, 2820302411, 3259730800, 3345764771,
   3516065817, 3600352804, 4094571909, 275423344,
   430227734, 506948616, 659060556, 883997877,
   958139571, 1322822218, 1537002063, 1747873779,
   1955562222, 2024104815, 2227730452, 2361852424,
   2428436474, 2756734187, 3204031479, 3329325298]

/-- The eight 32-bit words of a SHA-256 state. -/
structure Hash8 where
  a : Nat
  b : Nat
  c : Nat
  d : Nat
  e : Nat
  f : Nat
  g : Nat
  h : Nat
deriving Repr, DecidableEq

/-- The SHA-256 initial state. -/
def sha256Init : Hash8 :=
  ⟨1779033703, 3144134277, 1013904242, 2773480762,
   1359893119, 2600822924, 528734635, 1541459225⟩

/-- Group bytes into 32-bit big-endian words. -/
def bytesToWords : List Nat → List Nat
  | a :: b :: c :: d :: rest =>
      (((a * 256 + b) * 256 + c) * 256 + d) :: bytesToWords rest
  | _ => []

def smallSigma0 (x : Nat) : Nat := rotr32 x 7 ^^^ rotr32 x 18 ^^^ (x >>> 3)

def smallSigma1 (x : Nat) : Nat := rotr32 x 17 ^^^ rotr32 x 19 ^^^ (x >>> 10)

def bigSigma0 (x : Nat) : Nat := rotr32 x 2 ^^^ rotr32 x 13 ^^^ rotr32 x 22

def bigSigma1 (x : Nat) : Nat := rotr32 x 6 ^^^ rotr32 x 11 ^^^ rotr32 x 25

def chBits (x y z : Nat) : Nat := (x &&& y) ^^^ ((x ^^^ 4294967295) &&& z)

def majBits (x y z : Nat) : Nat := (x &&& y) ^^^ (x &&& z) ^^^ (y &&& z)

/-- Extend the 16 schedule words by the given number of further words. -/
def extendW : Nat → List Nat → List Nat
  | 0, w => w
  | k + 1, w =>
      let i := w.length
      extendW k (w ++ [w32 (smallSigma1 (w.getD (i - 2) 0) + w.getD (i - 7) 0
        + smallSigma0 (w.getD (i - 15) 0) + w.getD (i - 16) 0)])

/-- One SHA-256 compression round; the pair holds the round constant and
the schedule word. -/
def sha256Round (st : Hash8) (kw : Nat × Nat) : Hash8 :=
  let t1 := w32 (st.h + bigSigma1 st.e + chBits st.e st.f st.g + kw.1 + kw.2)
  let t2 := w32 (bigSigma0 st.a + majBits st.a st.b st.c)
  ⟨w32 (t1 + t2), st.a, st.b, st.c, w32 (st.d + t1), st.e, st.f, st.g⟩

/-- Compress one 64-byte block into the running state. -/
def compressBlock (st : Hash8) (block : List Nat) : Hash8 :=
  let ws := extendW 48 (bytesToWords block)
  let fin := (sha256K.zip ws).foldl sha256Round st
  ⟨w32 (st.a + fin.a), w32 (st.b + fin.b), w32 (st.c + fin.c),
   w32 (st.d + fin.d), w32 (st.e + fin.e), w32 (st.f + fin.f),
   w32 (st.g + fin.g), w32 (st.h + fin.h)⟩

/-- Split a byte list into 64-byte blocks (the fuel bounds the length). -/
def chunks64 : Nat → List Nat → List (List Nat)
  | 0, _ => []
  | _, [] => []
  | fuel + 1, l => l.take 64 :: chunks64 fuel (l.drop 64)

/-- Big-endian bytes of a number, to the given width. -/
def natToBytesBE : Nat → Nat → List Nat
  | 0, _ => []
  | k + 1, n => natToBytesBE k (n / 256) ++ [n % 256]

/-- SHA-256 message padding. -/
def sha256Pad (msg : List Nat) : List Nat :=
  msg ++ 128 :: List.replicate ((119 - msg.length % 64) % 64) 0
    ++ natToBytesBE 8 (8 * msg.length)

/-- SHA-256 of a byte list, as 32 digest bytes. -/
def sha256Bytes (msg : List Nat) : List Nat :=
  let padded := sha256Pad msg
  let fin := (chunks64 padded.length padded).foldl compressBlock sha256Init
  natToBytesBE 4 fin.a ++ natToBytesBE 4 fin.b ++ natToBytesBE 4 fin.c
    ++ natToBytesBE 4 fin.d ++ natToBytesBE 4 fin.e ++ natToBytesBE 4 fin.f
    ++ natToBytesBE 4 fin.g ++ natToBytesBE 4 fin.h

/-- Lower-case hex digit. -/
def hexDigitChar (n : Nat) : Char :=
  if n < 10 then Char.ofNat (48 + n) else Char.ofNat (87 + n)

/-- Lower-case hex encoding of a byte list (hashlib hexdigest). -/
def bytesToHex (bs : List Nat) : String :=
  String.mk ((bs.map fun b => [hexDigitChar (b / 16), hexDigitChar (b % 16)]).flatten)

/-- UTF-8 encoding of a single character. -/
def utf8EncodeChar (c : Char) : List Nat :=
  let n := c.toNat
  if n < 128 then [n]
  else if n < 2048 then [192 + n / 64, 128 + n % 64]
  else if n < 65536 then [224 + n / 4096, 128 + (n / 64) % 64, 128 + n % 64]
  else [240 + n / 262144, 128 + (n / 4096) % 64, 128 + (n / 64) % 64, 128 + n % 64]

/-- UTF-8 bytes of a string (str.encode). -/
def strBytes (s : String) : List Nat :=
  (s.data.map utf8EncodeChar).flatten

/-- HMAC-SHA256 with a 64-byte block size (hmac.new with hashlib.sha256). -/
def hmacSha256 (key msg : List Nat) : List Nat :=
  let k0 := if key.length > 64 then sha256Bytes key else key
  let kp := k0 ++ List.replicate (64 - k0.length) 0
  sha256Bytes ((kp.map fun b => b ^^^ 92)
    ++ sha256Bytes ((kp.map fun b => b ^^^ 54) ++ msg))

/-- Character of one 6-bit value in the standard base64 alphabet. -/
def b64Char (n : Nat) : Char :=
  if n < 26 then Char.ofNat (65 + n)
  else if n < 52 then Char.ofNat (97 + (n - 26))
  else if n < 62 then Char.ofNat (48 + (n - 52))
  else if n = 62 then Char.ofNat 43
  else Char.ofNat 47

/-- Standard base64 encoding with padding (base64.b64encode). -/
def base64EncodeAux : List Nat → List Char
  | [] => []
  | [a] => [b64Char (a / 4), b64Char (a % 4 * 16), Char.ofNat 61, Char.ofNat 61]
  | [a, b] => [b64Char (a / 4), b64Char (a % 4 * 16 + b / 16),
               b64Char (b % 16 * 4), Char.ofNat 61]
  | a :: b :: c :: rest =>
      b64Char (a / 4) :: b64Char (a % 4 * 16 + b / 16)
        :: b64Char (b % 16 * 4 + c / 64) :: b64Char (c % 64)
        :: base64EncodeAux rest

def base64Encode (bs : List Nat) : String := String.mk (base64EncodeAux bs)

/-- 6-bit value of a base64 alphabet character; padding and foreign
characters are discarded, as base64.b64decode does by default. -/
def b64Value (c : Char) : Option Nat :=
  let n := c.toNat
  if 65 ≤ n ∧ n ≤ 90 then some (n - 65)
  else if 97 ≤ n ∧ n ≤ 122 then some (n - 97 + 26)
  else if 48 ≤ n ∧ n ≤ 57 then some (n - 48 + 52)
  else if n = 43 then some 62
  else if n = 47 then some 63
  else none

/-- Reassemble bytes from a list of 6-bit values. -/
def b64DecodeVals : List Nat → List Nat
  | a :: b :: c :: d :: rest =>
      (a * 4 + b / 16) :: (b % 16 * 16 + c / 4) :: (c % 4 * 64 + d)
        :: b64DecodeVals rest
  | [a, b] => [a * 4 + b / 16]
  | [a, b, c] => [a * 4 + b / 16, b % 16 * 16 + c / 4]
  | _ => []

/-- base64.b64decode of a string, as a byte list. -/
def base64Decode (s : String) : List Nat :=
  b64DecodeVals (s.data.filterMap b64Value)

/-- ElasticConnector.push_intelligence document id: the sha256 hexdigest
of the concatenated ioc_hash and submitter (dict.get with default ""). -/
def elastic_doc_id (intelligence_data : IntelligenceData) : String :=
  bytesToHex (sha256Bytes (strBytes
    (intelligence_data.ioc_hash.getD "" ++ intelligence_data.submitter.getD "")))

/-- The URL addressed by the Elastic PUT request. -/
def elastic_doc_url (endpoint : String)
    (intelligence_data : IntelligenceData) : String :=
  endpoint ++ "/cti-intelligence/_doc/" ++ elastic_doc_id intelligence_data

/-- SentinelConnector.push_intelligence: the canonical string that is
signed, from the serialized body and the x-ms-date header value. -/
def sentinel_string_to_hash (body date : String) : String :=
  "POST\n" ++ toString body.length ++ "\napplication/json\nx-ms-date:"
    ++ date ++ "\n/api/logs"

/-- SentinelConnector._build_signature: base64-encoded HMAC-SHA256 of the
UTF-8 message under the base64-decoded shared secret. -/
def build_signature (message secret : String) : String :=
  base64Encode (hmacSha256 (base64Decode secret) (strBytes message))

/-- The Authorization header value of the Sentinel push request. -/
def sentinel_authorization (workspace_id shared_key body date : String) :
    String :=
  "SharedKey " ++ workspace_id ++ ":"
    ++ build_signature (sentinel_string_to_hash body date) shared_key

/-- The event body of the Splunk HEC envelope. -/
structure SplunkEvent where
  threat_id : Option String
  timestamp : Option String
  severity : String
  threat_type : Option String
  confidence : String
  ioc_hash : Option String
  stix_pattern : Option String
  mitre_techniques : List String
  submitter : Option String
  verified : Bool
  validation_count : Int
deriving Repr, DecidableEq

/-- The Splunk HEC envelope; time is the host clock at push time. -/
structure SplunkEnvelope where
  time : Int
  source : String
  sourcetype : String
  index : String
  event : SplunkEvent
deriving Repr, DecidableEq

/-- SplunkConnector.push_intelligence payload construction. -/
def splunk_event (time : Int) (d : IntelligenceData) : SplunkEnvelope :=
  { time := time
    source := "cti_platform_sui"
    sourcetype := "threat_intelligence"
    index := "security"
    event :=
      { threat_id := d.id
        timestamp := d.submission_time
        severity := map_severity (d.severity.getD 1)
        threat_type := d.threat_type
        confidence := map_confidence (d.confidence_score.getD 0)
        ioc_hash := d.ioc_hash
        stix_pattern := d.stix_pattern
        mitre_techniques := d.mitre_techniques.getD []
        submitter := d.submitter
        verified := d.is_verified.getD false
        validation_count := d.validation_count.getD 0 } }

/-- One QRadar custom event. -/
structure QRadarEvent where
  qid : Int
  severity : Int
  credibility : Int
  relevance : Int
  threat_type : Option String
  ioc_hash : Option String
  stix_pattern : Option String
  mitre_techniques : String
  submitter : Option String
  blockchain_tx : String
  sui_platform : String
deriving Repr, DecidableEq

/-- QRadarConnector._qradar_severity_mapping: clamp to the 1-10 scale. -/
def qradar_severity_mapping (sui_severity : Int) : Int :=
  min 10 (max 1 sui_severity)

/-- QRadarConnector.push_intelligence payload construction; // is the
Python floor division, is_verified is read without a default and tested
for truthiness. -/
def qradar_event (d : IntelligenceData) : QRadarEvent :=
  { qid := 99999
    severity := qradar_severity_mapping (d.severity.getD 1)
    credibility := min 10 (Int.fdiv (d.confidence_score.getD 0) 10)
    relevance := if d.is_verified.getD false then 10 else 5
    threat_type := d.threat_type
    ioc_hash := d.ioc_hash
    stix_pattern := d.stix_pattern
    mitre_techniques := String.intercalate "," (d.mitre_techniques.getD [])
    submitter := d.submitter
    blockchain_tx := d.transaction_hash.getD ""
    sui_platform := "true" }

/-- The single Sentinel log object. -/
structure SentinelLog where
  TimeGenerated : String
  ThreatType : Option String
  Severity : String
  ConfidenceScore : Int
  IOCHash : Option String
  STIXPattern : Option String
  MITRETechniques : String
  Submitter : Option String
  IsVerified : Bool
  ValidationCount : Int
  BlockchainPlatform : String
  CTIPlatform : String
deriving Repr, DecidableEq

/-- SentinelConnector.push_intelligence payload construction. -/
def sentinel_log_data (time_generated : String)
    (d : IntelligenceData) : SentinelLog :=
  { TimeGenerated := time_generated
    ThreatType := d.threat_type
    Severity := map_severity (d.severity.getD 1)
    ConfidenceScore := d.confidence_score.getD 0
    IOCHash := d.ioc_hash
    STIXPattern := d.stix_pattern
    MITRETechniques := String.intercalate "," (d.mitre_techniques.getD [])
    Submitter := d.submitter
    IsVerified := d.is_verified.getD false
    ValidationCount := d.validation_count.getD 0
    BlockchainPlatform := "Sui"
    CTIPlatform := "SuiCTISharing" }

/-- The Elastic document, with its nested dicts flattened into prefixed
field names. -/
structure ElasticDoc where
  at_timestamp : String
  event_kind : String
  event_category : List String
  event_type : List String
  event_dataset : String
  indicator_type : Option String
  indicator_confidence : String
  marking_verified : Bool
  blockchain : String
  submitter : Option String
  validation_count : Int
  ioc_hash : Option String
  stix_pattern : Option String
  mitre_techniques : List String
  log_level : String
deriving Repr, DecidableEq

/-- ElasticConnector.push_intelligence payload construction. -/
def elastic_doc (at_timestamp : String) (d : IntelligenceData) : ElasticDoc :=
  { at_timestamp := at_timestamp
    event_kind := "enrichment"
    event_category := ["threat"]
    event_type := ["indicator"]
    event_dataset := "cti.sui_platform"
    indicator_type := d.threat_type
    indicator_confidence := map_confidence (d.confidence_score.getD 0)
    marking_verified := d.is_verified.getD false
    blockchain := "sui"
    submitter := d.submitter
    validation_count := d.validation_count.getD 0
    ioc_hash := d.ioc_hash
    stix_pattern := d.stix_pattern
    mitre_techniques := d.mitre_techniques.getD []
    log_level := map_severity (d.severity.getD 1) }

/-- The record with the builders' dict.get defaults filled into the five
optional fields the payload builders default. -/
def with_field_defaults (d : IntelligenceData) : IntelligenceData :=
  { d with
    severity := some (d.severity.getD 1)
    confidence_score := some (d.confidence_score.getD 0)
    mitre_techniques := some (d.mitre_techniques.getD [])
    is_verified := some (d.is_verified.getD false)
    validation_count := some (d.validation_count.getD 0) }

/-- The SIEMType enum. -/
inductive SIEMType where
  | splunk
  | qradar
  | arcsight
  | sentinel
  | elastic
  | generic
deriving Repr, DecidableEq

/-- The connector classes the factory can instantiate; the base class
(siemConnector) is the generic fallback. -/
inductive ConnectorClass where
  | splunkConnector
  | qradarConnector
  | sentinelConnector
  | elasticConnector
  | siemConnector
deriving Repr, DecidableEq

/-- The connector_map lookup table of create_siem_connector; ARCSIGHT has
no entry. -/
def connector_map : SIEMType → Option ConnectorClass
  | .splunk => some .splunkConnector
  | .qradar => some .qradarConnector
  | .sentinel => some .sentinelConnector
  | .elastic => some .elasticConnector
  | .generic => some .siemConnector
  | .arcsight => none

/-- create_siem_connector: connector_map.get with the base class as the
default. -/
def create_siem_connector (siem_type : SIEMType) : ConnectorClass :=
  (connector_map siem_type).getD .siemConnector

/-- Outcome of the one HTTP call a vendor adapter makes. -/
inductive HttpOutcome where
  | exn : String → HttpOutcome
  | status : Nat → HttpOutcome
deriving Repr, DecidableEq

/-- push_intelligence of each connector class: the base class raises
NotImplementedError before any try block; every vendor adapter runs
inside try/except and classifies the response status (200 for Splunk and
Sentinel, 200 or 201 for QRadar and Elastic), any caught exception
yielding a normal False. -/
def push_intelligence (cls : ConnectorClass)
    (intelligence_data : IntelligenceData)
    (response : HttpOutcome) : PushResult :=
  match cls, intelligence_data with
  | .siemConnector, _ => .raises "NotImplementedError"
  | .splunkConnector, _ =>
      .ok (match response with | .exn _ => false | .status s => s == 200)
  | .qradarConnector, _ =>
      .ok (match response with
           | .exn _ => false
           | .status s => s == 200 || s == 201)
  | .sentinelConnector, _ =>
      .ok (match response with | .exn _ => false | .status s => s == 200)
  | .elasticConnector, _ =>
      .ok (match response with
           | .exn _ => false
           | .status s => s == 200 || s == 201)

end CTISiem

namespace CTISiem

/-- The rank of the mapped severity band, expressed numerically. -/
theorem severity_rank_map_severity (s : Int) :
    severity_rank (map_severity s) =
      if s ≥ 8 then 3 else if s ≥ 6 then 2 else if s ≥ 4 then 1 else 0 := by
  unfold map_severity
  split_ifs <;> decide

/-- C4: for severity scores 1-10 the shared mapper returns low on 1-3,
medium on 4-5, high on 6-7 and critical on 8-10, and it is monotone
non-decreasing in the order low<medium<high<critical. -/
theorem c4_map_severity_bands :
    (∀ s : Int, 1 ≤ s → s ≤ 10 →
      map_severity s =
        if s ≤ 3 then "low"
        else if s ≤ 5 then "medium"
        else if s ≤ 7 then "high"
        else "critical")
    ∧ (∀ s t : Int, 1 ≤ s → s ≤ t → t ≤ 10 →
      severity_rank (map_severity s) ≤ severity_rank (map_severity t)) := by
  constructor
  · intro s h1 h2
    unfold map_severity
    split_ifs <;> first | rfl | omega
  · intro s t h1 h2 h3
    rw [severity_rank_map_severity, severity_rank_map_severity]
    split_ifs <;> omega

/-- Witness for C4 at concrete scores. -/
theorem c4_map_severity_bands_witness :
    map_severity 8 =
      (if (8 : Int) ≤ 3 then "low"
       else if (8 : Int) ≤ 5 then "medium"
       else if (8 : Int) ≤ 7 then "high"
       else "critical")
    ∧ severity_rank (map_severity 2) ≤ severity_rank (map_severity 9) :=
  ⟨c4_map_severity_bands.1 8 (by decide) (by decide),
   c4_map_severity_bands.2 2 9 (by decide) (by decide) (by decide)⟩

/-- C5: for confidence scores 0-100 the shared mapper returns low on 0-59,
medium on 60-79 and high on 80-100. -/
theorem c5_map_confidence_bands :
    ∀ s : Int, 0 ≤ s → s ≤ 100 →
      map_confidence s =
        if s ≤ 59 then "low"
        else if s ≤ 79 then "medium"
        else "high" := by
  intro s h1 h2
  unfold map_confidence
  split_ifs <;> first | rfl | omega

/-- Witness for C5 at a concrete score. -/
theorem c5_map_confidence_bands_witness :
    map_confidence 60 =
      (if (60 : Int) ≤ 59 then "low"
       else if (60 : Int) ≤ 79 then "medium"
       else "high") :=
  c5_map_confidence_bands 60 (by decide) (by decide)

/-- Mapping only the values of an association list leaves the keys
unchanged. -/
theorem map_fst_map_value {β γ : Type} (f : β → γ) (l : List (String × β)) :
    (l.map fun kv => (kv.1, f kv.2)).map Prod.fst = l.map Prod.fst := by
  induction l with
  | nil => rfl
  | cons hd tl ih => simp [ih]

/-- Mapping only the values of an association list commutes with lookup. -/
theorem lookup_map_value {β γ : Type} (f : β → γ) (n : String) :
    ∀ l : List (String × β),
      ((l.map fun kv => (kv.1, f kv.2)).lookup n) = (l.lookup n).map f := by
  intro l
  induction l with
  | nil => rfl
  | cons hd tl ih =>
    obtain ⟨k, v⟩ := hd
    cases h : n == k <;> simp [List.lookup, h, ih]

/-- In an association list with nodup keys, lookup finds any member. -/
theorem lookup_eq_of_mem_nodup {β : Type} (n : String) (c : β) :
    ∀ l : List (String × β), (l.map Prod.fst).Nodup → (n, c) ∈ l →
      l.lookup n = some c := by
  intro l
  induction l with
  | nil => intro _ h; cases h
  | cons hd tl ih =>
    obtain ⟨k, v⟩ := hd
    intro hnd hmem
    simp only [List.map_cons, List.nodup_cons] at hnd
    rcases List.mem_cons.mp hmem with heq | htl
    · injection heq with h1 h2
      subst h1; subst h2
      simp [List.lookup]
    · have hne : n ≠ k := by
        intro he
        subst he
        exact hnd.1 (List.mem_map.mpr ⟨(n, c), htl, rfl⟩)
      have hb : (n == k) = false := beq_eq_false_iff_ne.mpr hne
      simp [List.lookup, hb]
      exact ih hnd.2 htl

/-- Filtering an association list by a key predicate commutes with
projecting the keys. -/
theorem map_fst_filter_key {β : Type} (p : String → Bool) :
    ∀ l : List (String × β),
      (l.filter fun kv => p kv.1).map Prod.fst = (l.map Prod.fst).filter p := by
  intro l
  induction l with
  | nil => rfl
  | cons hd tl ih =>
    cases h : p hd.1 <;> simp [List.filter_cons, h, ih]

/-- The broadcast result keys are the resolved target keys. -/
theorem broadcast_map_fst (registry : List (String × Connector))
    (d : IntelligenceData) (t : Option (List String)) :
    (broadcast_intelligence registry d t).map Prod.fst
      = (resolve_targets registry t).map Prod.fst := by
  unfold broadcast_intelligence
  exact map_fst_map_value (fun c => gather_entry (safe_push_intelligence (c d)))
    (resolve_targets registry t)

/-- Lookup in the broadcast result is the image of lookup in the resolved
target set. -/
theorem broadcast_lookup (registry : List (String × Connector))
    (d : IntelligenceData) (t : Option (List String)) (n : String) :
    (broadcast_intelligence registry d t).lookup n
      = ((resolve_targets registry t).lookup n).map
          fun c => gather_entry (safe_push_intelligence (c d)) := by
  unfold broadcast_intelligence
  exact lookup_map_value (fun c => gather_entry (safe_push_intelligence (c d))) n
    (resolve_targets registry t)

/-- Target resolution keeps the registry keys nodup. -/
theorem resolve_targets_nodup (registry : List (String × Connector))
    (t : Option (List String))
    (hnd : (registry.map Prod.fst).Nodup) :
    ((resolve_targets registry t).map Prod.fst).Nodup := by
  match t with
  | none => exact hnd
  | some ts =>
    by_cases h : ts.isEmpty
    · simpa [resolve_targets, h] using hnd
    · rw [resolve_targets]
      rw [if_neg h]
      rw [map_fst_filter_key]
      exact hnd.filter _

/-- C1: the broadcast result has exactly one boolean entry per targeted
connector name; a connector whose push raises gets False, a connector
whose push returns a boolean gets that boolean; no fault aborts the call,
and an entry depends only on its own connector's behaviour, never on a
sibling's. -/
theorem c1_broadcast_isolation
    (registry : List (String × Connector)) (d : IntelligenceData)
    (target : Option (List String))
    (hnd : (registry.map Prod.fst).Nodup) :
    ((broadcast_intelligence registry d target).map Prod.fst
        = (resolve_targets registry target).map Prod.fst)
    ∧ ((broadcast_intelligence registry d target).map Prod.fst).Nodup
    ∧ (∀ n c, (n, c) ∈ resolve_targets registry target →
        (∀ e, c d = PushResult.raises e →
          (broadcast_intelligence registry d target).lookup n = some false)
        ∧ (∀ b, c d = PushResult.ok b →
          (broadcast_intelligence registry d target).lookup n = some b))
    ∧ (∀ registry2 n,
        (resolve_targets registry2 target).lookup n
          = (resolve_targets registry target).lookup n →
        (broadcast_intelligence registry2 d target).lookup n
          = (broadcast_intelligence registry d target).lookup n) := by
  refine ⟨broadcast_map_fst registry d target, ?_, ?_, ?_⟩
  · rw [broadcast_map_fst]
    exact resolve_targets_nodup registry target hnd
  · intro n c hmem
    have hres : (resolve_targets registry target).lookup n = some c :=
      lookup_eq_of_mem_nodup n c _ (resolve_targets_nodup registry target hnd) hmem
    have hb := broadcast_lookup registry d target n
    rw [hres] at hb
    constructor
    · intro e he
      rw [hb]
      simp [he, gather_entry, safe_push_intelligence]
    · intro b hbk
      rw [hb]
      simp [hbk, gather_entry, safe_push_intelligence]
  · intro registry2 n hsame
    rw [broadcast_lookup, broadcast_lookup, hsame]

/-- Witness for C1 on a one-connector registry whose push raises. -/
theorem c1_broadcast_isolation_witness :
    (broadcast_intelligence
        [("a", fun _ => PushResult.raises "RuntimeError")] emptyData none).lookup "a"
      = some false :=
  ((c1_broadcast_isolation
      [("a", fun _ => PushResult.raises "RuntimeError")] emptyData none
      (by simp)).2.2.1 "a" (fun _ => PushResult.raises "RuntimeError")
      (List.mem_singleton.mpr rfl)).1 "RuntimeError" rfl

/-- C2 counterexample: with registry {"a"} and the provided (but empty)
target list, the claim predicts a result map keyed by the names in both
the registry and the list (none), yet the code keys the map by the whole
registry because the Python truthiness test treats [] like None. -/
theorem c2_counterexample :
    ¬ ((broadcast_intelligence [("a", always_true_connector)] emptyData
          (some [])).map Prod.fst
        = (([("a", always_true_connector)] : List (String × Connector)).map
            Prod.fst).filter fun n => ([] : List String).contains n) := by
  decide

/-- C2 (amended): omitting targetNames targets the whole registry; a
provided NON-EMPTY targetNames targets exactly the registry entries whose
name is listed, unknown names being silently ignored, and the result map
holds only names in both the registry and the list. -/
theorem c2_amended_targeting
    (registry : List (String × Connector)) (d : IntelligenceData)
    (ts : List String) (hts : ts ≠ []) :
    ((broadcast_intelligence registry d none).map Prod.fst
        = registry.map Prod.fst)
    ∧ ((broadcast_intelligence registry d (some ts)).map Prod.fst
        = (registry.map Prod.fst).filter fun n => ts.contains n)
    ∧ (∀ n, n ∈ (broadcast_intelligence registry d (some ts)).map Prod.fst →
        n ∈ registry.map Prod.fst ∧ n ∈ ts) := by
  have hne : ts.isEmpty = false := by
    cases ts with
    | nil => exact absurd rfl hts
    | cons hd tl => rfl
  have hkeys : (broadcast_intelligence registry d (some ts)).map Prod.fst
      = (registry.map Prod.fst).filter fun n => ts.contains n := by
    rw [broadcast_map_fst]
    rw [resolve_targets]
    rw [hne]
    simp only [Bool.false_eq_true, if_false]
    exact map_fst_filter_key _ registry
  refine ⟨broadcast_map_fst registry d none, hkeys, ?_⟩
  intro n hn
  rw [hkeys] at hn
  have := List.mem_filter.mp hn
  exact ⟨this.1, List.mem_of_elem_eq_true this.2⟩

/-- Witness for C2 (amended) on a concrete registry and target list. -/
theorem c2_amended_targeting_witness :
    (broadcast_intelligence [("a", always_true_connector)] emptyData
        (some ["a", "b"])).map Prod.fst
      = (([("a", always_true_connector)] : List (String × Connector)).map
          Prod.fst).filter fun n => (["a", "b"] : List String).contains n :=
  (c2_amended_targeting [("a", always_true_connector)] emptyData ["a", "b"]
    (by decide)).2.1

/-- C3: the derived success count never exceeds the number of result
entries, which never exceeds the registry size at call time, and an empty
registry yields an empty result map. -/
theorem c3_broadcast_counts
    (registry : List (String × Connector)) (d : IntelligenceData)
    (target : Option (List String)) :
    success_count (broadcast_intelligence registry d target)
        ≤ (broadcast_intelligence registry d target).length
    ∧ (broadcast_intelligence registry d target).length ≤ registry.length
    ∧ (registry = [] → broadcast_intelligence registry d target = []) := by
  refine ⟨List.countP_le_length _, ?_, ?_⟩
  · rw [broadcast_intelligence, List.length_map]
    match target with
    | none => exact Nat.le_refl _
    | some ts =>
      rw [resolve_targets]
      by_cases h : ts.isEmpty
      · rw [if_pos h]
      · rw [if_neg h]
        exact List.length_filter_le _ _
  · intro hreg
    subst hreg
    rw [broadcast_intelligence]
    match target with
    | none => rfl
    | some ts =>
      rw [resolve_targets]
      by_cases h : ts.isEmpty
      · rw [if_pos h]
        rfl
      · rw [if_neg h]
        rfl

/-- Witness for C3 at the empty registry. -/
theorem c3_broadcast_counts_witness :
    broadcast_intelligence [] emptyData none = [] :=
  (c3_broadcast_counts [] emptyData none).2.2 rfl

/-- C9: broadcasting with an empty targetNames list behaves exactly like
omitting targetNames, because the Python truthiness check is false for
the empty list: the entire registry is targeted. -/
theorem c9_empty_target_list (registry : List (String × Connector))
    (d : IntelligenceData) :
    broadcast_intelligence registry d (some [])
      = broadcast_intelligence registry d none := rfl

set_option maxRecDepth 10000 in
/-- FIPS 180-2 known-answer check of the executable SHA-256. -/
theorem sha256_known_answer :
    bytesToHex (sha256Bytes (strBytes "abc"))
      = "ba7816bf8f01cfea414140de5dae2223b00361a396177a9cb410ff61f20015ad" := by
  decide

set_option maxRecDepth 10000 in
/-- RFC 4231 test case 2 known-answer check of the executable HMAC. -/
theorem hmac_known_answer :
    bytesToHex (hmacSha256 (strBytes "Jefe")
        (strBytes "what do ya want for nothing?"))
      = "5bdcc146bf60754e6a042426089575c75a003f089d2739839dec58b964ec3843" := by
  decide

set_option maxRecDepth 10000 in
/-- Round-trip check of the executable base64 encoder and decoder. -/
theorem base64_known_answer :
    base64Encode (strBytes "Many hands make light work.")
      = "TWFueSBoYW5kcyBtYWtlIGxpZ2h0IHdvcmsu"
    ∧ base64Decode "TWFueSBoYW5kcyBtYWtlIGxpZ2h0IHdvcmsu"
      = strBytes "Many hands make light work."
    ∧ base64Encode (strBytes "Ma") = "TWE=" := by
  refine ⟨by decide, by decide, by decide⟩

/-- C6: the Elastic adapter's document id is the SHA-256 hexdigest of the
record's IOC hash concatenated with its submitter, so any two records
agreeing on that pair derive the same id whatever their other fields. -/
theorem c6_elastic_doc_id_stable :
    (∀ d : IntelligenceData,
      elastic_doc_id d
        = bytesToHex (sha256Bytes (strBytes
            (d.ioc_hash.getD "" ++ d.submitter.getD ""))))
    ∧ (∀ d1 d2 : IntelligenceData,
        d1.ioc_hash = d2.ioc_hash → d1.submitter = d2.submitter →
        elastic_doc_id d1 = elastic_doc_id d2
        ∧ ∀ endpoint : String,
            elastic_doc_url endpoint d1 = elastic_doc_url endpoint d2) := by
  refine ⟨fun d => rfl, ?_⟩
  intro d1 d2 h1 h2
  have hid : elastic_doc_id d1 = elastic_doc_id d2 := by
    unfold elastic_doc_id
    rw [h1, h2]
  exact ⟨hid, fun endpoint => by rw [elastic_doc_url, elastic_doc_url, hid]⟩

/-- Witness for C6: two records sharing (ioc_hash, submitter) but
differing in severity and threat_type derive the same id. -/
theorem c6_elastic_doc_id_stable_witness :
    elastic_doc_id
        { emptyData with ioc_hash := some "abc123", submitter := some "alice",
                         severity := some 9 }
      = elastic_doc_id
          { emptyData with ioc_hash := some "abc123", submitter := some "alice",
                           threat_type := some "malware" } :=
  (c6_elastic_doc_id_stable.2
    { emptyData with ioc_hash := some "abc123", submitter := some "alice",
                     severity := some 9 }
    { emptyData with ioc_hash := some "abc123", submitter := some "alice",
                     threat_type := some "malware" }
    rfl rfl).1

/-- C7: the Sentinel authorization signature is the base64 encoding of an
HMAC-SHA256, keyed by the base64-decoded shared secret, over the
canonical string POST, body length, application/json, the x-ms-date
value and /api/logs joined by newlines; for a fixed secret, body and
date the signature is identical across repeated computations. -/
theorem c7_sentinel_signature :
    (∀ workspace_id shared_key body date : String,
      sentinel_authorization workspace_id shared_key body date
        = "SharedKey " ++ workspace_id ++ ":"
            ++ base64Encode (hmacSha256 (base64Decode shared_key)
                 (strBytes ("POST\n" ++ toString body.length
                   ++ "\napplication/json\nx-ms-date:" ++ date
                   ++ "\n/api/logs"))))
    ∧ (∀ s1 s2 b1 b2 d1 d2 : String, s1 = s2 → b1 = b2 → d1 = d2 →
        build_signature (sentinel_string_to_hash b1 d1) s1
          = build_signature (sentinel_string_to_hash b2 d2) s2) := by
  refine ⟨fun w k b dt => rfl, ?_⟩
  intro s1 s2 b1 b2 d1 d2 hs hb hd
  rw [hs, hb, hd]

/-- Witness for C7 at concrete secret, body and date. -/
theorem c7_sentinel_signature_witness :
    build_signature (sentinel_string_to_hash "[]" "Mon, 01 Jan 2024") "c2VjcmV0"
      = build_signature (sentinel_string_to_hash "[]" "Mon, 01 Jan 2024") "c2VjcmV0" :=
  c7_sentinel_signature.2 "c2VjcmV0" "c2VjcmV0" "[]" "[]"
    "Mon, 01 Jan 2024" "Mon, 01 Jan 2024" rfl rfl rfl

/-- C8: the generic fallback connector's push always raises
NotImplementedError rather than succeeding, a registry entry with that
push gets a False entry from the orchestrator, and the factory returns
the base class for every type missing from its lookup table. -/
theorem c8_fallback_connector :
    (∀ (d : IntelligenceData) (r : HttpOutcome),
      push_intelligence ConnectorClass.siemConnector d r
        = PushResult.raises "NotImplementedError")
    ∧ (∀ t : SIEMType, connector_map t = none →
        create_siem_connector t = ConnectorClass.siemConnector)
    ∧ (∀ (registry : List (String × Connector)) (d : IntelligenceData)
        (target : Option (List String)) (n : String) (r : HttpOutcome),
        (registry.map Prod.fst).Nodup →
        (n, fun d2 => push_intelligence ConnectorClass.siemConnector d2 r)
          ∈ resolve_targets registry target →
        (broadcast_intelligence registry d target).lookup n = some false) := by
  refine ⟨fun d r => rfl, ?_, ?_⟩
  · intro t h
    rw [create_siem_connector, h]
    rfl
  · intro registry d target n r hnd hmem
    have hres := lookup_eq_of_mem_nodup n
      (fun d2 => push_intelligence ConnectorClass.siemConnector d2 r)
      (resolve_targets registry target)
      (resolve_targets_nodup registry target hnd) hmem
    have hb := broadcast_lookup registry d target n
    rw [hres] at hb
    rw [hb]
    rfl

/-- Witness for C8: the arcsight type falls back to the base class, and a
registry holding the fallback connector reports False for it. -/
theorem c8_fallback_connector_witness :
    create_siem_connector SIEMType.arcsight = ConnectorClass.siemConnector
    ∧ (broadcast_intelligence
        [("fallback", fun d2 =>
            push_intelligence ConnectorClass.siemConnector d2
              (HttpOutcome.status 200))]
        emptyData none).lookup "fallback" = some false :=
  ⟨c8_fallback_connector.2.1 SIEMType.arcsight rfl,
   c8_fallback_connector.2.2
     [("fallback", fun d2 =>
         push_intelligence ConnectorClass.siemConnector d2
           (HttpOutcome.status 200))]
     emptyData none "fallback" (HttpOutcome.status 200)
     (by simp) (List.mem_singleton.mpr rfl)⟩

/-- C10: every vendor payload builder reads the record fields through
dict.get defaults — severity 1, confidence_score 0, mitre_techniques [],
is_verified False, validation_count 0 — so a record with those fields
absent is accepted and builds the same payload as one carrying the
default values. -/
theorem c10_missing_field_defaults (d : IntelligenceData) (time : Int)
    (time_generated at_timestamp : String) :
    splunk_event time d = splunk_event time (with_field_defaults d)
    ∧ qradar_event d = qradar_event (with_field_defaults d)
    ∧ sentinel_log_data time_generated d
        = sentinel_log_data time_generated (with_field_defaults d)
    ∧ elastic_doc at_timestamp d
        = elastic_doc at_timestamp (with_field_defaults d) :=
  ⟨rfl, rfl, rfl, rfl⟩

end CTISiem
